import Mathlib

/-!
Verification of the caching/aggregation core of the `assumable-mortgage`
scraper.  The Python sources are shallowly embedded: JSON values become an
inductive type, the file cache becomes an explicit association of paths to
stored blobs, network transports become oracle functions supplied as
arguments, and fallible code returns `Except`.  Numbers are modelled as
integers (no claim depends on fractional coordinate values).
-/

/-- JSON values as produced by `json.loads` / consumed by `json.dumps`.
Object fields keep their insertion order, as Python dicts do. -/
inductive Json where
  | null
  | bool (b : Bool)
  | num (n : Int)
  | str (s : String)
  | arr (elems : List Json)
  | obj (fields : List (String × Json))

/-- Python truthiness (`bool(x)`) on JSON values: `None`, `False`, `0`,
`""`, `[]`, `{}` are falsy. -/
def truthy : Json → Bool
  | Json.null => false
  | Json.bool b => b
  | Json.num n => n != 0
  | Json.str s => s != ""
  | Json.arr elems => !elems.isEmpty
  | Json.obj fields => !fields.isEmpty

/-- First-match lookup in an object's field list (Python dict indexing;
dict keys are unique, so first-match is exact). -/
def lookupField : List (String × Json) → String → Option Json
  | [], _ => none
  | (k', v) :: rest, k => if k' = k then some v else lookupField rest k

/-- `x.get(k)` with default `None`: `null` when the key is missing or the
value is not a dict (Python raises on a non-dict; the claims only use this
on dict-shaped values, enforced by shape hypotheses where it matters). -/
def jGet (j : Json) (k : String) : Json :=
  match j with
  | Json.obj fields => (lookupField fields k).getD Json.null
  | _ => Json.null

/-- `x.get(k, d)` with an explicit default. -/
def jGetD (j : Json) (k : String) (d : Json) : Json :=
  match j with
  | Json.obj fields => (lookupField fields k).getD d
  | _ => d

/-- Prefix test on character lists (`str.startswith`). -/
def charListPrefix : List Char → List Char → Bool
  | [], _ => true
  | _ :: _, [] => false
  | a :: as, b :: bs => a == b && charListPrefix as bs

/-- `name.startswith(p)` on the underlying characters. -/
def strStartsWith (p s : String) : Bool := charListPrefix p.data s.data

/-- `name.endswith(p)` on the underlying characters. -/
def strEndsWith (p s : String) : Bool :=
  charListPrefix p.data.reverse s.data.reverse

/-- Code-point lexicographic order on character lists: both Python string
comparison (`sorted()`, `sort_keys=True`) and the comparison of cache
filenames are this order. -/
def charListLe : List Char → List Char → Bool
  | [], _ => true
  | _ :: _, [] => false
  | a :: as, b :: bs =>
    if a.toNat = b.toNat then charListLe as bs
    else decide (a.toNat < b.toNat)

theorem charListLe_trans : ∀ as bs cs : List Char,
    charListLe as bs = true → charListLe bs cs = true →
    charListLe as cs = true
  | [], _, _ => by intro _ _; rfl
  | _ :: _, [], _ => by intro h; exact absurd h (by simp [charListLe])
  | _ :: _, _ :: _, [] => by
    intro _ h; exact absurd h (by simp [charListLe])
  | a :: as, b :: bs, c :: cs => by
    intro h1 h2
    simp only [charListLe] at h1 h2 ⊢
    by_cases hab : a.toNat = b.toNat
    · rw [if_pos hab] at h1
      by_cases hbc : b.toNat = c.toNat
      · rw [if_pos hbc] at h2
        rw [if_pos (hab.trans hbc)]
        exact charListLe_trans as bs cs h1 h2
      · rw [if_neg hbc] at h2
        simp only [decide_eq_true_eq] at h2
        rw [if_neg (by omega : ¬ a.toNat = c.toNat)]
        simp only [decide_eq_true_eq]
        omega
    · rw [if_neg hab] at h1
      simp only [decide_eq_true_eq] at h1
      by_cases hbc : b.toNat = c.toNat
      · rw [if_pos hbc] at h2
        rw [if_neg (by omega : ¬ a.toNat = c.toNat)]
        simp only [decide_eq_true_eq]
        omega
      · rw [if_neg hbc] at h2
        simp only [decide_eq_true_eq] at h2
        rw [if_neg (by omega : ¬ a.toNat = c.toNat)]
        simp only [decide_eq_true_eq]
        omega

theorem charListLe_total : ∀ as bs : List Char,
    charListLe as bs = true ∨ charListLe bs as = true
  | [], _ => Or.inl rfl
  | _ :: _, [] => Or.inr rfl
  | a :: as, b :: bs => by
    simp only [charListLe]
    by_cases hab : a.toNat = b.toNat
    · rw [if_pos hab, if_pos hab.symm]
      exact charListLe_total as bs
    · rw [if_neg hab, if_neg (fun h => hab h.symm)]
      simp only [decide_eq_true_eq]
      omega

theorem charListLe_antisymm : ∀ as bs : List Char,
    charListLe as bs = true → charListLe bs as = true → as = bs
  | [], [] => by intro _ _; rfl
  | [], _ :: _ => by intro _ h; exact absurd h (by simp [charListLe])
  | _ :: _, [] => by intro h _; exact absurd h (by simp [charListLe])
  | a :: as, b :: bs => by
    intro h1 h2
    simp only [charListLe] at h1 h2
    by_cases hab : a.toNat = b.toNat
    · rw [if_pos hab] at h1
      rw [if_pos hab.symm] at h2
      have hval : a.val.toNat = b.val.toNat := hab
      have hchar : a = b := Char.ext (UInt32.toNat.inj hval)
      rw [hchar, charListLe_antisymm as bs h1 h2]
    · rw [if_neg hab] at h1
      rw [if_neg (fun h => hab h.symm)] at h2
      simp only [decide_eq_true_eq] at h1 h2
      omega

instance {α : Type} : DecidableRel
    (fun (a b : String × α) => charListLe a.1.data b.1.data = true) :=
  fun _ _ => inferInstance

/-- Sort an association list by key (`json.dumps(..., sort_keys=True)`
sorts dict keys; `sorted()` on cache filenames sorts lexicographically;
a stable comparison sort models Python `sorted`). -/
def sortByKey {α : Type} (l : List (String × α)) : List (String × α) :=
  List.insertionSort (fun a b => charListLe a.1.data b.1.data = true) l

theorem sortByKey_key_le {α : Type} (l : List (String × α)) :
    (sortByKey l).Pairwise
      (fun a b => charListLe a.1.data b.1.data = true) := by
  haveI : IsTotal (String × α)
      (fun a b => charListLe a.1.data b.1.data = true) :=
    ⟨fun a b => charListLe_total _ _⟩
  haveI : IsTrans (String × α)
      (fun a b => charListLe a.1.data b.1.data = true) :=
    ⟨fun a b c => charListLe_trans _ _ _⟩
  exact List.sorted_insertionSort _ l

/-- Key-based sorting is permutation-invariant when keys are distinct:
the canonical ordering ignores the input field order. -/
theorem sortByKey_eq_of_perm {α : Type} {l₁ l₂ : List (String × α)}
    (hp : l₁.Perm l₂) (hnd : (l₁.map Prod.fst).Nodup) :
    sortByKey l₁ = sortByKey l₂ := by
  have hs₁ : (sortByKey l₁).Perm l₁ := List.perm_insertionSort _ l₁
  have hs₂ : (sortByKey l₂).Perm l₂ := List.perm_insertionSort _ l₂
  have hperm : (sortByKey l₁).Perm (sortByKey l₂) :=
    (hs₁.trans hp).trans hs₂.symm
  have hnd₁ : ((sortByKey l₁).map Prod.fst).Nodup :=
    ((hs₁.map Prod.fst).nodup_iff).mpr hnd
  have hkeys₁ : (sortByKey l₁).Pairwise (fun a b => a.1 ≠ b.1) :=
    (List.pairwise_map).mp hnd₁
  have hnd₂ : ((sortByKey l₂).map Prod.fst).Nodup :=
    ((hperm.map Prod.fst).nodup_iff).mp hnd₁
  have hkeys₂ : (sortByKey l₂).Pairwise (fun a b => a.1 ≠ b.1) :=
    (List.pairwise_map).mp hnd₂
  have hlt₁ : (sortByKey l₁).Pairwise
      (fun a b => charListLe a.1.data b.1.data = true ∧ a.1 ≠ b.1) :=
    (sortByKey_key_le l₁).and hkeys₁
  have hlt₂ : (sortByKey l₂).Pairwise
      (fun a b => charListLe a.1.data b.1.data = true ∧ a.1 ≠ b.1) :=
    (sortByKey_key_le l₂).and hkeys₂
  haveI : IsAntisymm (String × α)
      (fun a b => charListLe a.1.data b.1.data = true ∧ a.1 ≠ b.1) :=
    ⟨fun a b hab hba => by
      exact absurd
        (String.ext (charListLe_antisymm _ _ hab.1 hba.1))
        hab.2⟩
  exact List.eq_of_perm_of_sorted hperm hlt₁ hlt₂

mutual
/-- `json.dumps(obj, sort_keys=True)`: canonical serialization with dict
keys sorted at every level.  String escaping of special characters is not
modelled (no claim depends on it); braces are written via hex escapes. -/
def dumps : Json → String
  | Json.null => "null"
  | Json.bool b => if b then "true" else "false"
  | Json.num n => toString n
  | Json.str s => "\"" ++ s ++ "\""
  | Json.arr elems => "[" ++ String.intercalate ", " (dumpsList elems) ++ "]"
  | Json.obj fields =>
      "\x7b" ++
        String.intercalate ", "
          ((sortByKey (dumpsFields fields)).map
            (fun kv => "\"" ++ kv.1 ++ "\": " ++ kv.2)) ++
      "\x7d"

def dumpsList : List Json → List String
  | [] => []
  | j :: rest => dumps j :: dumpsList rest

def dumpsFields : List (String × Json) → List (String × String)
  | [] => []
  | (k, v) :: rest => (k, dumps v) :: dumpsFields rest
end

theorem dumpsFields_eq_map (l : List (String × Json)) :
    dumpsFields l = l.map (fun kv => (kv.1, dumps kv.2)) := by
  induction l with
  | nil => rfl
  | cons kv rest ih => cases kv; simp [dumpsFields, ih]

/-- Deterministic stand-in for `hashlib.md5(payload).hexdigest()`.  Every
claim about keys depends only on the digest being a function of the
payload bytes, so a simple rolling hash rendered in hex models it. -/
def md5Hex (s : String) : String :=
  String.mk (Nat.toDigits 16
    (s.foldl (fun acc c => (acc * 131 + c.toNat) % 4294967296) 5381))

/-- A cache-key descriptor handed to `FileCache.make_key`: either a value
that `json.dumps` can serialize structurally, or an object for which
serialization raises and only the `str()` coercion (carried as `rep`) is
available. -/
inductive Desc where
  | json (j : Json)
  | unserializable (rep : String)

/-- The `json.dumps(obj, sort_keys=True, default=str)` attempt inside
`make_key`: fails exactly on non-structurally-serializable descriptors. -/
def serializeDesc : Desc → Option String
  | Desc.json j => some (dumps j)
  | Desc.unserializable _ => none

/-- `str(obj)` coercion used by the `make_key` fallback.  The `.json`
branch is never reached by `make_key` (serialization succeeds there). -/
def pyStrDesc : Desc → String
  | Desc.json j => dumps j
  | Desc.unserializable rep => rep

/-- File contents on disk: either well-formed JSON (what `json.load`
parses back) or bytes that make `json.load` raise. -/
inductive Stored where
  | jval (j : Json)
  | malformed (raw : String)

/-- The cache directory: path to stored file contents. -/
def FS : Type := String → Option Stored

/-- Overwrite a path with well-formed JSON (`open(path, "w")` + dump). -/
def fsWrite (fs : FS) (path : String) (data : Json) : FS :=
  fun q => if q = path then some (Stored.jval data) else fs q

namespace FileCache

/-- `FileCache.make_key`: tries canonical serialization, falls back to
hashing the string coercion when serialization raises. -/
def make_key (d : Desc) : String :=
  match serializeDesc d with
  | some payload => md5Hex payload
  | none => md5Hex (pyStrDesc d)

/-- `FileCache.path_for(prefix, key)`: `.cache/<prefix>_<key>.json`. -/
def path_for (ns key : String) : String :=
  ".cache/" ++ ns ++ "_" ++ key ++ ".json"

/-- `FileCache.read_json`: a missing file is a miss (`None`); an existing
file goes through `json.load`, which raises on malformed content — there
is no `try/except` around it in the source. -/
def read_json (fs : FS) (path : String) : Except String (Option Json) :=
  match fs path with
  | none => Except.ok none
  | some (Stored.jval j) => Except.ok (some j)
  | some (Stored.malformed _) => Except.error "json.decoder.JSONDecodeError"

/-- `FileCache.write_json`: opens the file for writing and dumps; the
source wraps nothing in `try/except`, so an I/O failure (modelled by
`canWrite = false`) propagates to the caller. -/
def write_json (canWrite : Bool) (fs : FS) (path : String) (data : Json) :
    Except String FS :=
  if canWrite then Except.ok (fsWrite fs path data) else Except.error "OSError"

end FileCache

/-- C1: for every mapping descriptor, every permutation of its field order
yields the identical cache key (canonicalization sorts mapping keys before
serialization); and a descriptor that cannot be serialized structurally
does not raise but is keyed by the hash of its string coercion. -/
theorem make_key_deterministic :
    (∀ (l₁ l₂ : List (String × Json)), l₁.Perm l₂ →
      (l₁.map Prod.fst).Nodup →
      FileCache.make_key (Desc.json (Json.obj l₁)) =
        FileCache.make_key (Desc.json (Json.obj l₂))) ∧
    (∀ d : Desc, serializeDesc d = none →
      FileCache.make_key d = md5Hex (pyStrDesc d)) := by
  constructor
  · intro l₁ l₂ hp hnd
    have hfp : (dumpsFields l₁).Perm (dumpsFields l₂) := by
      rw [dumpsFields_eq_map, dumpsFields_eq_map]
      exact hp.map _
    have hfnd : ((dumpsFields l₁).map Prod.fst).Nodup := by
      rw [dumpsFields_eq_map, List.map_map]
      exact hnd
    have hsort := sortByKey_eq_of_perm hfp hfnd
    simp only [FileCache.make_key, serializeDesc, dumps, hsort]
  · intro d hd
    simp only [FileCache.make_key, hd]

/-- Witness for C1 at a concrete two-field mapping and its swap, and at a
concrete unserializable descriptor. -/
theorem make_key_deterministic_witness :
    FileCache.make_key (Desc.json (Json.obj
        [("b", Json.num 1), ("a", Json.num 2)])) =
      FileCache.make_key (Desc.json (Json.obj
        [("a", Json.num 2), ("b", Json.num 1)])) ∧
    FileCache.make_key (Desc.unserializable "<object at 0x1>") =
      md5Hex (pyStrDesc (Desc.unserializable "<object at 0x1>")) := by
  refine ⟨?_, ?_⟩
  · exact make_key_deterministic.1
      [("b", Json.num 1), ("a", Json.num 2)]
      [("a", Json.num 2), ("b", Json.num 1)]
      (List.Perm.swap _ _ _) (by decide)
  · exact make_key_deterministic.2 (Desc.unserializable "<object at 0x1>") rfl

/-! ## Listing source adapter (`AssumableClient.fetch_listing_page`) -/

/-- The fixed form payload built by `fetch_listing_page`, embedding the
page number and auth token (field order as written in the source). -/
def listingData (page : Nat) (token : String) : Json :=
  Json.obj
    [("_token", Json.str token),
     ("location", Json.str "New York"),
     ("search_mode", Json.str "location"),
     ("geopicker_type", Json.str "viewport"),
     ("page", Json.num page),
     ("SelectedView", Json.str "map_view"),
     ("LocationGeoId", Json.num 3269),
     ("viewport", Json.str
       "-76.8612404491507,37.73641064455742,-72.41452414055695,43.07531462025779"),
     ("zoom", Json.num 1),
     ("ajax", Json.num 1)]

/-- Cache path used by the listing adapter:
`page_<md5(json.dumps(data, sort_keys=True))>.json` under `.cache`. -/
def listingCachePath (page : Nat) (token : String) : String :=
  ".cache/page_" ++ md5Hex (dumps (listingData page token)) ++ ".json"

/-- The listing network transport: form payload and cookies in, HTTP
status and parsed JSON body out. -/
def ListingNet : Type := Json → List (String × String) → Nat × Json

/-- The `{request, response}` envelope the listing adapter writes on a
successful miss. -/
def listingEnvelope (page : Nat) (token : String) (r : Json) : Json :=
  Json.obj
    [("request", Json.obj
        [("url", Json.str ("https://app.assumable.io/?_token=" ++ token)),
         ("data", listingData page token)]),
     ("response", r)]

/-- `AssumableClient.fetch_listing_page`: read-through cache keyed on the
payload.  On hit, returns the stored envelope's `response` with no network
call; on miss, calls the transport, fails fatally on a non-200 status,
otherwise writes the `{request, response}` envelope and returns the parsed
body.  The third component counts network calls made by this invocation. -/
def fetch_listing_page (net : ListingNet) (fs : FS) (page : Nat)
    (token : String) (cookies : List (String × String)) :
    Except String (Json × FS × Nat) :=
  let data := listingData page token
  let path := listingCachePath page token
  match fs path with
  | some (Stored.jval stored) => Except.ok (jGet stored "response", fs, 0)
  | some (Stored.malformed _) => Except.error "json.decoder.JSONDecodeError"
  | none =>
    let sb := net data cookies
    if sb.1 = 200 then
      Except.ok (sb.2, fsWrite fs path (listingEnvelope page token sb.2), 1)
    else
      Except.error ("Assumable request failed with status: " ++ toString sb.1)

/-- C2: from a state where the key is absent, two calls with identical
arguments make exactly one network call in total: the first call returns
the transport's body and writes the envelope, the second returns the same
value from that file with zero network calls, leaving the cache as-is. -/
theorem fetch_listing_page_read_through (net : ListingNet) (fs : FS)
    (page : Nat) (token : String) (cookies : List (String × String))
    (r : Json)
    (hmiss : fs (listingCachePath page token) = none)
    (hnet : net (listingData page token) cookies = (200, r)) :
    fetch_listing_page net fs page token cookies =
      Except.ok (r,
        fsWrite fs (listingCachePath page token)
          (listingEnvelope page token r), 1) ∧
    fetch_listing_page net
        (fsWrite fs (listingCachePath page token)
          (listingEnvelope page token r)) page token cookies =
      Except.ok (r,
        fsWrite fs (listingCachePath page token)
          (listingEnvelope page token r), 0) := by
  refine ⟨?_, ?_⟩
  · simp only [fetch_listing_page, hmiss, hnet]
    rw [if_pos trivial]
  · simp only [fetch_listing_page, hmiss, hnet, fsWrite, if_pos rfl]
    simp [listingEnvelope, jGet, lookupField]

/-- Witness for C2 at a concrete transport, token and empty cache. -/
theorem fetch_listing_page_read_through_witness :
    fetch_listing_page (fun _ _ => (200, Json.num 7)) (fun _ => none)
        1 "tok" [] =
      Except.ok (Json.num 7,
        fsWrite (fun _ => none) (listingCachePath 1 "tok")
          (listingEnvelope 1 "tok" (Json.num 7)), 1) ∧
    fetch_listing_page (fun _ _ => (200, Json.num 7))
        (fsWrite (fun _ => none) (listingCachePath 1 "tok")
          (listingEnvelope 1 "tok" (Json.num 7))) 1 "tok" [] =
      Except.ok (Json.num 7,
        fsWrite (fun _ => none) (listingCachePath 1 "tok")
          (listingEnvelope 1 "tok" (Json.num 7)), 0) :=
  fetch_listing_page_read_through (fun _ _ => (200, Json.num 7))
    (fun _ => none) 1 "tok" [] (Json.num 7) rfl rfl

/-! ## Aggregator loop for listing pages (`cli.main`) -/

/-- `first_response.get("SearchPagerBar", {}).get("TotalPages", 1)`. -/
def getTotalPages (j : Json) : Int :=
  match jGet (jGetD j "SearchPagerBar" (Json.obj [])) "TotalPages" with
  | Json.num n => n
  | _ => 1

/-- `response.get("MapList", {}).get("ListingsSummaryVM", [])`. -/
def getListings (j : Json) : List Json :=
  match jGet (jGetD j "MapList" (Json.obj [])) "ListingsSummaryVM" with
  | Json.arr xs => xs
  | _ => []

/-- The pagination loop of `cli.main` over a listing source: fetch page 1,
read the total-page count from it, then fetch pages `2..totalPages`
appending each page's items (an empty page is logged, not a stop signal).
Returns the merged items and the list of pages fetched, in order. -/
def aggregateListings (fetch : Nat → Json) : List Json × List Nat :=
  let first := fetch 1
  let totalPages := getTotalPages first
  let rest := List.range' 2 (totalPages - 1).toNat
  (getListings first ++ rest.flatMap (fun p => getListings (fetch p)),
   1 :: rest)

/-- C3: if page 1 reports `TotalPages = N` (with `N ≥ 1`), the loop
fetches exactly pages `1..N` in ascending order and the merged list is the
concatenation of the pages' items in that order; a page with zero items
(`getListings` empty) contributes nothing but does not stop the loop. -/
theorem listing_pagination_complete (fetch : Nat → Json) (N : Nat)
    (hN : 1 ≤ N) (htp : getTotalPages (fetch 1) = (N : Int)) :
    (aggregateListings fetch).2 = List.range' 1 N ∧
    (aggregateListings fetch).2.length = N ∧
    (aggregateListings fetch).1 =
      (List.range' 1 N).flatMap (fun p => getListings (fetch p)) := by
  have hsub : ((N : Int) - 1).toNat = N - 1 := by omega
  have hrange : List.range' 1 N = 1 :: List.range' 2 (N - 1) := by
    obtain ⟨M, rfl⟩ : ∃ M, N = M + 1 := ⟨N - 1, by omega⟩
    simp [List.range'_succ]
  refine ⟨?_, ?_, ?_⟩
  · simp [aggregateListings, htp, hsub, hrange]
  · simp [aggregateListings, htp, hsub, hrange]
    omega
  · simp [aggregateListings, htp, hsub, hrange]

/-- A three-page simulated listing source; page 1 reports three total
pages, page 3 has zero items. -/
def simListingSource : Nat → Json
  | 1 => Json.obj
      [("SearchPagerBar", Json.obj [("TotalPages", Json.num 3)]),
       ("MapList", Json.obj
         [("ListingsSummaryVM", Json.arr [Json.str "a1", Json.str "a2"])])]
  | 2 => Json.obj
      [("MapList", Json.obj
         [("ListingsSummaryVM", Json.arr [Json.str "b1"])])]
  | _ => Json.obj
      [("MapList", Json.obj [("ListingsSummaryVM", Json.arr [])])]

/-- Witness for C3: on the simulated source all three pages are fetched in
order and the merge is page 1's items, then page 2's, then page 3's (which
is empty and stops nothing). -/
theorem listing_pagination_complete_witness :
    (aggregateListings simListingSource).2 = [1, 2, 3] ∧
    (aggregateListings simListingSource).1 =
      [Json.str "a1", Json.str "a2", Json.str "b1"] := by
  have h := listing_pagination_complete simListingSource 3 (by decide)
    (by decide)
  refine ⟨?_, ?_⟩
  · rw [h.1]; decide
  · rw [h.2.2]
    simp [simListingSource, getListings, jGet, jGetD, lookupField,
      List.range']

/-! ## Normalizer (`services/map_builder.py`) -/

/-- A map point for a property pin (coordinates are modelled as
integers; no claim depends on fractional values). -/
structure MapPoint where
  lat : Int
  lon : Int
  popup_html : String
  color : String
  group : String

/-- `_price_to_category`: bucket a price into a label and a color. -/
def _price_to_category (price : Int) : String × String :=
  if price ≥ 300000 then ("$300k+", "red")
  else if price ≥ 200000 then ("$200k - $299k", "lightred")
  else if price ≥ 100000 then ("$100k - $199k", "orange")
  else if price > 0 then ("Cash < $100k", "green")
  else ("Unknown", "gray")

/-- Python `str(x)` as used by f-string interpolation.  For containers the
exact repr is immaterial to every claim; the JSON serialization stands in
for it. -/
def pyStr : Json → String
  | Json.null => "None"
  | Json.bool b => if b then "True" else "False"
  | Json.num n => toString n
  | Json.str s => s
  | Json.arr elems => dumps (Json.arr elems)
  | Json.obj fields => dumps (Json.obj fields)

/-- `int(float(s))` on a plain decimal string, truncating toward zero.
Scientific notation and a trailing bare dot are not modelled (no claim
input uses them); failure is `none`. -/
def parseIntFloat (s : String) : Option Int :=
  match s.toInt? with
  | some n => some n
  | none =>
    match s.splitOn "." with
    | [a, b] => if b.length > 0 && b.all Char.isDigit then a.toInt? else none
    | _ => none

/-- `_safe_int_from_money`: strip `$` and `,`, trim, parse; empty or
unparsable input defaults to 0. -/
def _safe_int_from_money (value : Json) : Int :=
  let s := (((pyStr value).replace "$" "").replace "," "").trim
  if s = "" then 0
  else match parseIntFloat s with
    | some n => n
    | none => 0

/-- Coerce a JSON value used where Python expects a `str` (`.replace`,
`.split`).  Python raises a TypeError on a non-string there; the theorems
restrict those fields to string-or-absent shapes, so the fallback arm is
unreachable under their hypotheses. -/
def asStr : Json → String
  | Json.str s => s
  | _ => ""

/-- `float(x)` on a JSON number.  Python raises on non-numeric input; the
theorems restrict coordinate fields to numeric-or-absent shapes. -/
def jNumVal : Json → Int
  | Json.num n => n
  | _ => 0

/-- `_listing_to_point`: returns `none` when either centroid coordinate is
falsy (missing, `None` or zero), otherwise builds the pin with the price
bucket's color and group. -/
def _listing_to_point (listing : Json) : Option MapPoint :=
  let centroid := jGetD listing "Centroid" (Json.obj [])
  let lat := jGet centroid "latitude"
  let lon := jGet centroid "longitude"
  if !truthy lat || !truthy lon then none
  else
    let price := _safe_int_from_money (jGetD listing "CashFormat" (Json.str ""))
    let photo_link := asStr (jGetD listing "PhotoLink" (Json.str ""))
    let address_link :=
      ((asStr (jGetD listing "Location" (Json.str ""))).replace " " "-").toLower
    let zpid :=
      if photo_link = "" then ""
      else (((photo_link.splitOn "/").getLastD "").splitOn "_").headD ""
    let zillow_suffix := if zpid = "" then "/" else "/" ++ zpid ++ "_zpid/"
    let zillow_link :=
      "https://www.zillow.com/homedetails/" ++ address_link ++ zillow_suffix
    let mf := jGetD listing "MainFeatures" (Json.obj [])
    let popup_html :=
      "<div style=\"width:300px\"><img src=\"" ++ photo_link ++
      "\" alt=\"Property Image\" style=\"width:100%; border-radius:6px; margin-bottom:8px;\"><br><strong>" ++
      pyStr (jGetD listing "PriceHtml" (Json.str "N/A")) ++
      "</strong><br><strong>Cash:</strong> " ++
      pyStr (jGetD listing "CashFormat" (Json.str "N/A")) ++ "<em>" ++
      pyStr (jGetD listing "Location" (Json.str "")) ++ "</em><br><br>" ++
      pyStr (jGetD listing "Content" (Json.str "")) ++
      "<br><br><strong>Rate:</strong> " ++
      pyStr (jGetD mf "Rate" (Json.str "N/A")) ++
      "<br><strong>Monthly:</strong> " ++
      pyStr (jGetD mf "PaymentFormat" (Json.str "N/A")) ++
      "<br><strong>Estimated:</strong> " ++
      pyStr (jGetD mf "EstimatedPayFormat" (Json.str "N/A")) ++
      "<br><a href=\"" ++ zillow_link ++
      "\" target=\"_blank\">View on Zillow</a></div>"
    let gc := _price_to_category price
    some ⟨jNumVal lat, jNumVal lon, popup_html, gc.2, gc.1⟩

/-- The explicit-type-string step of `_normalize_school_type`: recognized
labels pass through, `district`/`magnet` map to public,
`religious`/`parochial` to private, anything else falls through. -/
def typeLabelFromStr (st_raw : Json) : Option String :=
  match st_raw with
  | Json.str st =>
    let s := st.trim.toLower
    if s = "public" || s = "private" || s = "charter" then some s
    else if s = "district" || s = "magnet" then some "public"
    else if s = "religious" || s = "parochial" then some "private"
    else none
  | _ => none

/-- Python's short-circuiting `a or b` on JSON values. -/
def pyOrJ (a b : Json) : Json := if truthy a then a else b

/-- `_normalize_school_type`: explicit type string, then boolean hints
(`isPrivate is True` checked before `isCharter is True`), then the
default `"public"`. -/
def _normalize_school_type (school : Json) : String :=
  match typeLabelFromStr
      (pyOrJ (jGet school "schoolType")
        (pyOrJ (jGet school "school_type") (jGet school "type"))) with
  | some l => l
  | none =>
    match jGet school "isPrivate" with
    | Json.bool true => "private"
    | _ =>
      match jGet school "isCharter" with
      | Json.bool true => "charter"
      | _ => "public"

/-- C6 counterexample: the middle bucket labels carry spaces around the
hyphen, so the exact labels quoted by the claim do not occur. -/
theorem price_bucket_label_cx :
    (_price_to_category 100000).1 = "$100k - $199k" ∧
    ¬ (_price_to_category 100000).1 = "$100k-$199k" ∧
    (_price_to_category 200000).1 = "$200k - $299k" ∧
    ¬ (_price_to_category 200000).1 = "$200k-$299k" := by decide

/-- C6 (amended): every integer price lands in exactly one of the five
ordered, non-overlapping buckets with its fixed color; the boundary cases
from the claim hold with the labels as written in the source
(`"$100k - $199k"`, `"$200k - $299k"`). -/
theorem price_bucketing_amended :
    _price_to_category 0 = ("Unknown", "gray") ∧
    _price_to_category 1 = ("Cash < $100k", "green") ∧
    _price_to_category 99999 = ("Cash < $100k", "green") ∧
    _price_to_category 100000 = ("$100k - $199k", "orange") ∧
    _price_to_category 299999 = ("$200k - $299k", "lightred") ∧
    _price_to_category 300000 = ("$300k+", "red") ∧
    (∀ price : Int,
      (_price_to_category price = ("$300k+", "red") ↔ 300000 ≤ price) ∧
      (_price_to_category price = ("$200k - $299k", "lightred") ↔
        200000 ≤ price ∧ price < 300000) ∧
      (_price_to_category price = ("$100k - $199k", "orange") ↔
        100000 ≤ price ∧ price < 200000) ∧
      (_price_to_category price = ("Cash < $100k", "green") ↔
        0 < price ∧ price < 100000) ∧
      (_price_to_category price = ("Unknown", "gray") ↔ price ≤ 0)) := by
  refine ⟨by decide, by decide, by decide, by decide, by decide, by decide, ?_⟩
  intro price
  unfold _price_to_category
  split_ifs with h1 h2 h3 h4 <;>
    refine ⟨?_, ?_, ?_, ?_, ?_⟩ <;>
    (constructor <;> intro h <;>
      first
        | rfl
        | omega
        | (exact absurd h (by decide)))

/-- Witness for C6 (amended) at a concrete in-range price. -/
theorem price_bucketing_amended_witness :
    _price_to_category 250000 = ("$200k - $299k", "lightred") :=
  ((price_bucketing_amended.2.2.2.2.2.2 250000).2.1).mpr
    ⟨by decide, by decide⟩

theorem typeLabelFromStr_mem (j : Json) (l : String)
    (h : typeLabelFromStr j = some l) :
    l = "public" ∨ l = "charter" ∨ l = "private" := by
  cases j with
  | str st =>
    unfold typeLabelFromStr at h
    dsimp only at h
    split_ifs at h with hA hB hC
    · injection h with h
      subst h
      simp only [Bool.or_eq_true, decide_eq_true_eq] at hA
      rcases hA with (hA | hA) | hA
      · exact Or.inl hA
      · exact Or.inr (Or.inr hA)
      · exact Or.inr (Or.inl hA)
    · injection h with h
      exact Or.inl h.symm
    · injection h with h
      exact Or.inr (Or.inr h.symm)
  | null => simp [typeLabelFromStr] at h
  | bool b => simp [typeLabelFromStr] at h
  | num n => simp [typeLabelFromStr] at h
  | arr elems => simp [typeLabelFromStr] at h
  | obj fields => simp [typeLabelFromStr] at h

/-- C7: the type normalization always lands in the closed set
{public, charter, private}; with no explicit type string and no
`isPrivate` hint, `isCharter=true` resolves to `"charter"`, and with
neither string nor boolean hints the default is `"public"`. -/
theorem school_type_fallback :
    (∀ school : Json, _normalize_school_type school = "public" ∨
      _normalize_school_type school = "charter" ∨
      _normalize_school_type school = "private") ∧
    (∀ fl : List (String × Json),
      lookupField fl "schoolType" = none →
      lookupField fl "school_type" = none →
      lookupField fl "type" = none →
      lookupField fl "isPrivate" = none →
      lookupField fl "isCharter" = some (Json.bool true) →
      _normalize_school_type (Json.obj fl) = "charter") ∧
    (∀ fl : List (String × Json),
      lookupField fl "schoolType" = none →
      lookupField fl "school_type" = none →
      lookupField fl "type" = none →
      lookupField fl "isPrivate" = none →
      lookupField fl "isCharter" = none →
      _normalize_school_type (Json.obj fl) = "public") := by
  refine ⟨?_, ?_, ?_⟩
  · intro school
    unfold _normalize_school_type
    split
    · rename_i l heq
      exact typeLabelFromStr_mem _ l heq
    · split
      · exact Or.inr (Or.inr rfl)
      · split
        · exact Or.inr (Or.inl rfl)
        · exact Or.inl rfl
  · intro fl h1 h2 h3 h4 h5
    simp [_normalize_school_type, jGet, h1, h2, h3, h4, h5, pyOrJ, truthy,
      typeLabelFromStr]
  · intro fl h1 h2 h3 h4 h5
    simp [_normalize_school_type, jGet, h1, h2, h3, h4, h5, pyOrJ, truthy,
      typeLabelFromStr]

/-- Witness for C7 at two concrete school records. -/
theorem school_type_fallback_witness :
    _normalize_school_type (Json.obj [("isCharter", Json.bool true)]) =
      "charter" ∧
    _normalize_school_type (Json.obj []) = "public" :=
  ⟨school_type_fallback.2.1 [("isCharter", Json.bool true)]
      rfl rfl rfl rfl rfl,
    school_type_fallback.2.2 [] rfl rfl rfl rfl rfl⟩

/-- Shape of a coordinate field in a real listing record: absent, `null`,
or numeric. -/
def NumOrAbsentField (fl : List (String × Json)) (k : String) : Prop :=
  lookupField fl k = none ∨ lookupField fl k = some Json.null ∨
    ∃ n : Int, lookupField fl k = some (Json.num n)

/-- Shape of a string field in a real listing record: absent or a string
(Python raises a TypeError on anything else where the field is used). -/
def StrOrAbsentField (fl : List (String × Json)) (k : String) : Prop :=
  lookupField fl k = none ∨ ∃ s : String, lookupField fl k = some (Json.str s)

/-- C8: for a listing record of the shape the API produces (dict-shaped
centroid with numeric-or-absent coordinates, string-or-absent link
fields), `_listing_to_point` returns `none` exactly when the centroid
latitude is missing, `None` or zero, or the longitude is; otherwise a
`MapPoint` is produced. -/
theorem listing_to_point_absent_iff (lf cf : List (String × Json))
    (hcen : lookupField lf "Centroid" = some (Json.obj cf) ∨
      (lookupField lf "Centroid" = none ∧ cf = []))
    (hlat : NumOrAbsentField cf "latitude")
    (hlon : NumOrAbsentField cf "longitude")
    (_hphoto : StrOrAbsentField lf "PhotoLink")
    (_hloc : StrOrAbsentField lf "Location") :
    (_listing_to_point (Json.obj lf) = none ↔
      (lookupField cf "latitude" = none ∨
       lookupField cf "latitude" = some Json.null ∨
       lookupField cf "latitude" = some (Json.num 0) ∨
       lookupField cf "longitude" = none ∨
       lookupField cf "longitude" = some Json.null ∨
       lookupField cf "longitude" = some (Json.num 0))) := by
  have hc : jGetD (Json.obj lf) "Centroid" (Json.obj []) = Json.obj cf := by
    rcases hcen with h | ⟨h, rfl⟩ <;> simp [jGetD, h]
  have keyFalsy : ∀ (k : String), NumOrAbsentField cf k →
      (truthy (jGet (Json.obj cf) k) = false ↔
        (lookupField cf k = none ∨ lookupField cf k = some Json.null ∨
         lookupField cf k = some (Json.num 0))) := by
    intro k h
    rcases h with h | h | ⟨n, h⟩ <;> simp [jGet, h, truthy]
  have main : _listing_to_point (Json.obj lf) = none ↔
      (!truthy (jGet (Json.obj cf) "latitude") ||
       !truthy (jGet (Json.obj cf) "longitude")) = true := by
    unfold _listing_to_point
    rw [hc]
    dsimp only
    split
    · rename_i hcond
      simpa using hcond
    · rename_i hcond
      simp [hcond]
  rw [main]
  rw [Bool.or_eq_true, Bool.not_eq_true', Bool.not_eq_true']
  rw [keyFalsy "latitude" hlat, keyFalsy "longitude" hlon]
  tauto

/-- Witness for C8: a record with `latitude = 0` produces no point. -/
theorem listing_to_point_absent_iff_witness :
    _listing_to_point (Json.obj [("Centroid", Json.obj
      [("latitude", Json.num 0), ("longitude", Json.num 5)])]) = none :=
  (listing_to_point_absent_iff
    [("Centroid", Json.obj
      [("latitude", Json.num 0), ("longitude", Json.num 5)])]
    [("latitude", Json.num 0), ("longitude", Json.num 5)]
    (Or.inl rfl)
    (Or.inr (Or.inr ⟨0, rfl⟩)) (Or.inr (Or.inr ⟨5, rfl⟩))
    (Or.inl rfl) (Or.inl rfl)).mpr (Or.inr (Or.inr (Or.inl rfl)))

/-! ## School source adapter (`GreatSchoolsClient.fetch_schools`) -/

/-- `response.get("items", [])` as a list (a non-list value would make the
Python `list(...)`/`extend` misbehave; API pages carry lists). -/
def getItems (j : Json) : List Json :=
  match jGet j "items" with
  | Json.arr xs => xs
  | _ => []

/-- `(page.get("links") or {}).get("next")` combined with the loop's
truthiness test: `None` or `""` ends pagination.  A truthy non-string
link would make the Python HTTP call raise; the chain hypotheses of the
theorems only produce string links. -/
def getNext (j : Json) : Option String :=
  match jGet (pyOrJ (jGet j "links") (Json.obj [])) "next" with
  | Json.str s => if s = "" then none else some s
  | _ => none

/-- `d[k] = v` on a copied dict: replace in place when the key exists
(Python dicts keep the key's position), else append. -/
def setField : List (String × Json) → String → Json → List (String × Json)
  | [], k, v => [(k, v)]
  | (k', v') :: rest, k, v =>
      if k' = k then (k, v) :: rest else (k', v') :: setField rest k v

/-- `aggregated = dict(first_result); aggregated["items"] = all_items`.
Python raises on a non-dict; the theorems hypothesize an object. -/
def objSet (j : Json) (k : String) (v : Json) : Json :=
  match j with
  | Json.obj fields => Json.obj (setField fields k v)
  | other => other

theorem lookupField_setField_same (fl : List (String × Json)) (k : String)
    (v : Json) : lookupField (setField fl k v) k = some v := by
  induction fl with
  | nil => simp [setField, lookupField]
  | cons kv rest ih =>
    obtain ⟨k', v'⟩ := kv
    by_cases h : k' = k
    · simp [setField, h, lookupField]
    · simp [setField, h, lookupField, ih]

theorem lookupField_setField_other (fl : List (String × Json))
    (k k' : String) (v : Json) (hk : k' ≠ k) :
    lookupField (setField fl k v) k' = lookupField fl k' := by
  induction fl with
  | nil => simp [setField, lookupField, hk, Ne.symm hk]
  | cons kv rest ih =>
    obtain ⟨k0, v0⟩ := kv
    by_cases h : k0 = k
    · subst h
      simp [setField, lookupField, hk, Ne.symm hk]
    · simp only [setField, if_neg h, lookupField]
      by_cases h2 : k0 = k'
      · simp [h2]
      · simp [h2, ih]

/-- The fixed query-parameter set built by `fetch_schools`. -/
def schoolsParams (lat lon distance : Int) (state : String) : Json :=
  Json.obj
    [("state", Json.str state),
     ("sort", Json.str "rating"),
     ("limit", Json.num 2000),
     ("url", Json.str "/gsr/api/schools"),
     ("countsOnly", Json.str "false"),
     ("level_code", Json.str "e,e"),
     ("lat", Json.num lat),
     ("lon", Json.num lon),
     ("distance", Json.num distance),
     ("extras", Json.str "students_per_teacher,review_summary,saved_schools"),
     ("locationType", Json.str "state")]

def GS_BASE_URL : String := "https://www.greatschools.org/gsr/api/schools"

/-- The school API transport: the first request (base URL plus params) and
the follow-up GETs keyed by the literal next-link URL.  Headers and
cookies are transport details outside the modelled state. -/
structure SchoolsNet where
  first : Nat × Json
  follow : String → Nat × Json

/-- The `while next_link:` loop of `fetch_schools`, with fuel for
termination (the source loop is unbounded; every theorem supplies enough
fuel for its finite chain).  Accumulates items in fetch order, records
each requested link, caches each successful page under its URL-derived
key, and stops on link exhaustion or the first non-200 follow-up. -/
def schoolsLoop (net : String → Nat × Json) :
    Nat → Option String → List Json → List String → FS →
    List Json × List String × FS
  | 0, _, acc, reqs, fs => (acc, reqs, fs)
  | _ + 1, none, acc, reqs, fs => (acc, reqs, fs)
  | fuel + 1, some link, acc, reqs, fs =>
    let sb := net link
    if sb.1 = 200 then
      let fs2 := fsWrite fs
        (FileCache.path_for "schools_page"
          (FileCache.make_key (Desc.json (Json.str link))))
        (Json.obj [("request", Json.obj [("url", Json.str link)]),
                   ("response", sb.2)])
      schoolsLoop net fuel (getNext sb.2) (acc ++ getItems sb.2)
        (reqs ++ [link]) fs2
    else (acc, reqs ++ [link], fs)

/-- `GreatSchoolsClient.fetch_schools`: aggregated-cache check (with
Python truthiness), fatal first page on non-200, per-page caching, link
following via `schoolsLoop`, then the aggregate — the first page's body
with `items` replaced by all fetched items — written under the original
parameter-based key and returned.  The third result component lists the
follow-up URLs requested. -/
def fetch_schools (net : SchoolsNet) (fuel : Nat) (fs : FS)
    (lat lon distance : Int) (state : String) :
    Except String (Json × FS × List String) :=
  let params := schoolsParams lat lon distance state
  let aggPath := FileCache.path_for "schools"
    (FileCache.make_key (Desc.json params))
  match FileCache.read_json fs aggPath with
  | Except.error e => Except.error e
  | Except.ok cachedOpt =>
    match (match cachedOpt with
           | some c => if truthy c then some c else none
           | none => none) with
    | some c => Except.ok (jGet c "response", fs, [])
    | none =>
      let sb := net.first
      if sb.1 = 200 then
        let firstReq := Json.obj
          [("url", Json.str GS_BASE_URL), ("params", params)]
        let fs1 := fsWrite fs
          (FileCache.path_for "schools_page"
            (FileCache.make_key (Desc.json firstReq)))
          (Json.obj [("request", firstReq), ("response", sb.2)])
        let r := schoolsLoop net.follow fuel (getNext sb.2) [] [] fs1
        let aggregated := objSet sb.2 "items"
          (Json.arr (getItems sb.2 ++ r.1))
        let fs3 := fsWrite r.2.2 aggPath
          (Json.obj [("request", firstReq), ("response", aggregated)])
        Except.ok (aggregated, fs3, r.2.1)
      else
        Except.error ("School request failed with status: " ++ toString sb.1)

/-- A finite follow-up chain through the transport: starting from the
pending next-link, each listed `(link, body)` pair is served with status
200 and its body's next-link points at the next entry; the chain ends
either with no next-link (`failOpt = none`) or at a link served with a
non-200 status (`failOpt = some fail`). -/
def Chained (net : String → Nat × Json) :
    Option String → List (String × Json) → Option String → Prop
  | nx, [], none => nx = none
  | nx, [], some fail => nx = some fail ∧ (net fail).1 ≠ 200
  | nx, (l, b) :: rest, failOpt =>
      nx = some l ∧ (net l).1 = 200 ∧ (net l).2 = b ∧
        Chained net (getNext b) rest failOpt

theorem schoolsLoop_spec (net : String → Nat × Json) :
    ∀ (chain : List (String × Json)) (failOpt : Option String)
      (nx : Option String) (fuel : Nat) (acc : List Json)
      (reqs : List String) (fs : FS),
      Chained net nx chain failOpt → chain.length + 1 ≤ fuel →
      ∃ fsF, schoolsLoop net fuel nx acc reqs fs =
        (acc ++ chain.flatMap (fun p => getItems p.2),
         reqs ++ chain.map Prod.fst ++ failOpt.toList, fsF) := by
  intro chain
  induction chain with
  | nil =>
    intro failOpt nx fuel acc reqs fs hch hfuel
    cases failOpt with
    | none =>
      have hnx : nx = none := hch
      subst hnx
      cases fuel with
      | zero => omega
      | succ f => exact ⟨fs, by simp [schoolsLoop]⟩
    | some fail =>
      obtain ⟨hnx, hfail⟩ := hch
      subst hnx
      cases fuel with
      | zero => omega
      | succ f => exact ⟨fs, by simp [schoolsLoop, hfail]⟩
  | cons p rest ih =>
    obtain ⟨l, b⟩ := p
    intro failOpt nx fuel acc reqs fs hch hfuel
    obtain ⟨hnx, h200, hbody, hrest⟩ := hch
    subst hnx
    cases fuel with
    | zero => simp at hfuel
    | succ f =>
      obtain ⟨fsF, hF⟩ := ih failOpt (getNext b) f (acc ++ getItems b)
        (reqs ++ [l])
        (fsWrite fs
          (FileCache.path_for "schools_page"
            (FileCache.make_key (Desc.json (Json.str l))))
          (Json.obj [("request", Json.obj [("url", Json.str l)]),
                     ("response", b)]))
        hrest (by simpa using Nat.le_of_succ_le_succ hfuel)
      refine ⟨fsF, ?_⟩
      simp only [schoolsLoop, h200, hbody, if_pos rfl]
      rw [hF]
      simp

theorem getItems_objSet (fs1 : List (String × Json)) (X : List Json) :
    getItems (objSet (Json.obj fs1) "items" (Json.arr X)) = X := by
  simp [objSet, getItems, jGet, lookupField_setField_same]

theorem jGet_objSet_other (fs1 : List (String × Json)) (k : String)
    (hk : k ≠ "items") (v : Json) :
    jGet (objSet (Json.obj fs1) "items" v) k = jGet (Json.obj fs1) k := by
  simp [objSet, jGet, lookupField_setField_other fs1 "items" k v hk]

/-- C4: with no aggregated-cache hit, a non-200 status on the first page
raises; a non-200 on a follow-up link does not raise: pagination stops at
the failing link (no request beyond it — the requested-link list is
exactly the successful chain plus the failing link) and the aggregate's
items are exactly the concatenation, in fetch order, of the first page's
items and the items of the pages fetched before the failure. -/
theorem fetch_schools_partial_failure (net : SchoolsNet) (fuel : Nat)
    (fs : FS) (lat lon distance : Int) (state : String)
    (hmiss : fs (FileCache.path_for "schools"
      (FileCache.make_key
        (Desc.json (schoolsParams lat lon distance state)))) = none) :
    (net.first.1 ≠ 200 →
      fetch_schools net fuel fs lat lon distance state =
        Except.error
          ("School request failed with status: " ++ toString net.first.1)) ∧
    (∀ (fs1 chain : List (String × Json)) (fail : String),
      net.first = (200, Json.obj fs1) →
      Chained net.follow (getNext (Json.obj fs1)) chain (some fail) →
      chain.length + 1 ≤ fuel →
      (fetch_schools net fuel fs lat lon distance state).map
          (fun t => (getItems t.1, t.2.2)) =
        Except.ok
          (getItems (Json.obj fs1) ++
             chain.flatMap (fun p => getItems p.2),
           chain.map Prod.fst ++ [fail])) := by
  constructor
  · intro h
    simp [fetch_schools, FileCache.read_json, hmiss, h]
  · intro fs1 chain fail h200 hch hfuel
    obtain ⟨fsF, hloop⟩ := schoolsLoop_spec net.follow chain (some fail)
      (getNext (Json.obj fs1)) fuel [] []
      (fsWrite fs
        (FileCache.path_for "schools_page"
          (FileCache.make_key (Desc.json (Json.obj
            [("url", Json.str GS_BASE_URL),
             ("params", schoolsParams lat lon distance state)]))))
        (Json.obj
          [("request", Json.obj
              [("url", Json.str GS_BASE_URL),
               ("params", schoolsParams lat lon distance state)]),
           ("response", Json.obj fs1)]))
      hch hfuel
    simp only [fetch_schools, FileCache.read_json, hmiss, h200]
    rw [hloop]
    simp [Except.map, getItems_objSet]

/-- C10: on any completed miss-path run (chain exhausted or stopped by a
failing follow-up), the returned aggregate is the first page's response
with only its `items` field replaced by the concatenation of all fetched
pages' items in fetch order; every other field is unchanged; and the
returned cache state holds the aggregate envelope under the original
parameter-based key. -/
theorem fetch_schools_aggregate_frame (net : SchoolsNet) (fuel : Nat)
    (fs : FS) (lat lon distance : Int) (state : String)
    (fs1 chain : List (String × Json)) (failOpt : Option String)
    (hmiss : fs (FileCache.path_for "schools"
      (FileCache.make_key
        (Desc.json (schoolsParams lat lon distance state)))) = none)
    (h200 : net.first = (200, Json.obj fs1))
    (hch : Chained net.follow (getNext (Json.obj fs1)) chain failOpt)
    (hfuel : chain.length + 1 ≤ fuel) :
    (fetch_schools net fuel fs lat lon distance state).map Prod.fst =
      Except.ok (objSet (Json.obj fs1) "items"
        (Json.arr (getItems (Json.obj fs1) ++
          chain.flatMap (fun p => getItems p.2)))) ∧
    (∀ k : String, k ≠ "items" →
      jGet (objSet (Json.obj fs1) "items"
        (Json.arr (getItems (Json.obj fs1) ++
          chain.flatMap (fun p => getItems p.2)))) k =
      jGet (Json.obj fs1) k) ∧
    (fetch_schools net fuel fs lat lon distance state).map
        (fun t => t.2.1 (FileCache.path_for "schools"
          (FileCache.make_key
            (Desc.json (schoolsParams lat lon distance state))))) =
      Except.ok (some (Stored.jval (Json.obj
        [("request", Json.obj
            [("url", Json.str GS_BASE_URL),
             ("params", schoolsParams lat lon distance state)]),
         ("response", objSet (Json.obj fs1) "items"
           (Json.arr (getItems (Json.obj fs1) ++
             chain.flatMap (fun p => getItems p.2))))]))) := by
  obtain ⟨fsF, hloop⟩ := schoolsLoop_spec net.follow chain failOpt
    (getNext (Json.obj fs1)) fuel [] []
    (fsWrite fs
      (FileCache.path_for "schools_page"
        (FileCache.make_key (Desc.json (Json.obj
          [("url", Json.str GS_BASE_URL),
           ("params", schoolsParams lat lon distance state)]))))
      (Json.obj
        [("request", Json.obj
            [("url", Json.str GS_BASE_URL),
             ("params", schoolsParams lat lon distance state)]),
         ("response", Json.obj fs1)]))
    hch hfuel
  refine ⟨?_, ?_, ?_⟩
  · simp only [fetch_schools, FileCache.read_json, hmiss, h200]
    rw [hloop]
    simp [Except.map]
  · intro k hk
    exact jGet_objSet_other fs1 k hk _
  · simp only [fetch_schools, FileCache.read_json, hmiss, h200]
    rw [hloop]
    simp [Except.map, fsWrite]

/-- First page of a simulated school source: one item, next link `u2`. -/
def gsFirstBody : List (String × Json) :=
  [("items", Json.arr [Json.num 1]),
   ("links", Json.obj [("next", Json.str "u2")])]

/-- Second page of the simulated source: one item, next link `u3`. -/
def gsBody2 : Json :=
  Json.obj [("items", Json.arr [Json.num 2]),
            ("links", Json.obj [("next", Json.str "u3")])]

/-- Simulated school transport: first page OK, `u2` OK, `u3` fails with a
500; pages beyond `u3` would respond but are never requested. -/
def gsNet : SchoolsNet :=
  { first := (200, Json.obj gsFirstBody),
    follow := fun l =>
      if l = "u2" then (200, gsBody2)
      else if l = "u3" then (500, Json.null)
      else (200, Json.obj []) }

theorem gsChain :
    Chained gsNet.follow (getNext (Json.obj gsFirstBody))
      [("u2", gsBody2)] (some "u3") := by
  show getNext (Json.obj gsFirstBody) = some "u2" ∧
    (gsNet.follow "u2").1 = 200 ∧ (gsNet.follow "u2").2 = gsBody2 ∧
    (getNext gsBody2 = some "u3" ∧ (gsNet.follow "u3").1 ≠ 200)
  refine ⟨by decide, by decide, ?_, by decide, by decide⟩
  simp [gsNet]

/-- Witness for C4: the simulated run returns (instead of raising) the
items of the first two pages only, and requests exactly `u2` then `u3`
and nothing beyond. -/
theorem fetch_schools_partial_failure_witness :
    (fetch_schools gsNet 5 (fun _ => none) 1 2 18 "NY").map
        (fun t => (getItems t.1, t.2.2)) =
      Except.ok ([Json.num 1, Json.num 2], ["u2", "u3"]) := by
  have h := (fetch_schools_partial_failure gsNet 5 (fun _ => none)
      1 2 18 "NY" rfl).2 gsFirstBody [("u2", gsBody2)] "u3" rfl gsChain
      (by decide)
  rw [h]
  simp [gsFirstBody, gsBody2, getItems, jGet, lookupField]

/-- Witness for C10 on the same simulated run: the aggregate is the first
page's body with `items` replaced, its `links` field is untouched, and
the aggregate envelope sits in the returned cache state under the
parameter-based key. -/
theorem fetch_schools_aggregate_frame_witness :
    (fetch_schools gsNet 5 (fun _ => none) 1 2 18 "NY").map Prod.fst =
      Except.ok (objSet (Json.obj gsFirstBody) "items"
        (Json.arr (getItems (Json.obj gsFirstBody) ++
          [("u2", gsBody2)].flatMap (fun p => getItems p.2)))) ∧
    jGet (objSet (Json.obj gsFirstBody) "items"
        (Json.arr (getItems (Json.obj gsFirstBody) ++
          [("u2", gsBody2)].flatMap (fun p => getItems p.2)))) "links" =
      jGet (Json.obj gsFirstBody) "links" ∧
    (fetch_schools gsNet 5 (fun _ => none) 1 2 18 "NY").map
        (fun t => t.2.1 (FileCache.path_for "schools"
          (FileCache.make_key (Desc.json (schoolsParams 1 2 18 "NY"))))) =
      Except.ok (some (Stored.jval (Json.obj
        [("request", Json.obj
            [("url", Json.str GS_BASE_URL),
             ("params", schoolsParams 1 2 18 "NY")]),
         ("response", objSet (Json.obj gsFirstBody) "items"
           (Json.arr (getItems (Json.obj gsFirstBody) ++
             [("u2", gsBody2)].flatMap (fun p => getItems p.2))))]))) := by
  have h := fetch_schools_aggregate_frame gsNet 5 (fun _ => none)
    1 2 18 "NY" gsFirstBody [("u2", gsBody2)] (some "u3") rfl rfl gsChain
    (by decide)
  exact ⟨h.1, h.2.1 "links" (by decide), h.2.2⟩

/-! ## Cache failure behaviour (`FileCache.read_json` / `write_json`) -/

/-- A directory holding one malformed file at path `"p"`. -/
def malformedFS : FS :=
  fun q => if q = "p" then some (Stored.malformed "not json") else none

/-- C5 counterexample: `read_json` does not return an absence signal for
an existing file with malformed content — `json.load` raises and nothing
catches it — and `write_json` propagates a write failure instead of
swallowing it (there is no `try/except` in either function). -/
theorem cache_failure_cx :
    FileCache.read_json malformedFS "p" =
      Except.error "json.decoder.JSONDecodeError" ∧
    FileCache.write_json false (fun _ => none) "p" (Json.num 1) =
      Except.error "OSError" :=
  ⟨rfl, rfl⟩

/-- C5 (amended): a missing file is treated as a cache miss — `read_json`
returns `None` without raising; but an existing file with malformed
content makes `read_json` raise a parse error that propagates, and a
failing write makes `write_json` raise; a successful write stores the
data at the path. -/
theorem cache_failure_amended :
    (∀ (fs : FS) (path : String), fs path = none →
      FileCache.read_json fs path = Except.ok none) ∧
    (∀ (fs : FS) (path raw : String), fs path = some (Stored.malformed raw) →
      FileCache.read_json fs path =
        Except.error "json.decoder.JSONDecodeError") ∧
    (∀ (fs : FS) (path : String) (data : Json),
      FileCache.write_json false fs path data = Except.error "OSError") ∧
    (∀ (fs : FS) (path : String) (data : Json),
      (FileCache.write_json true fs path data).map (fun f => f path) =
        Except.ok (some (Stored.jval data))) := by
  refine ⟨?_, ?_, ?_, ?_⟩
  · intro fs path h
    simp [FileCache.read_json, h]
  · intro fs path raw h
    simp [FileCache.read_json, h]
  · intro fs path data
    rfl
  · intro fs path data
    simp [FileCache.write_json, Except.map, fsWrite]

/-- Witness for C5 (amended) at a concrete store. -/
theorem cache_failure_amended_witness :
    FileCache.read_json (fun _ => none) "q" = Except.ok none ∧
    FileCache.read_json malformedFS "p" =
      Except.error "json.decoder.JSONDecodeError" ∧
    (FileCache.write_json true (fun _ => none) "q" (Json.num 2)).map
        (fun f => f "q") =
      Except.ok (some (Stored.jval (Json.num 2))) :=
  ⟨cache_failure_amended.1 (fun _ => none) "q" rfl,
   cache_failure_amended.2.1 malformedFS "p" "not json" rfl,
   cache_failure_amended.2.2.2 (fun _ => none) "q" (Json.num 2)⟩

/-! ## Map build from cached pages (`_load_points_from_cache`) -/

/-- `data.get("response", {}).get("MapList", {}).get("ListingsSummaryVM",
[])` on a cached listing-page envelope. -/
def getRespListings (data : Json) : List Json :=
  match jGet (jGetD (jGetD data "response" (Json.obj []))
      "MapList" (Json.obj [])) "ListingsSummaryVM" with
  | Json.arr xs => xs
  | _ => []

/-- `_load_points_from_cache`: the directory listing is filtered by the
`page_*.json` glob, sorted lexicographically by filename (`sorted(...)`
on the glob result), and each file's listings are converted in order; an
unreadable file is logged and skipped, an invalid listing is skipped. -/
def _load_points_from_cache (files : List (String × Stored)) :
    List MapPoint :=
  let matched := files.filter
    (fun kv => strStartsWith "page_" kv.1 && strEndsWith ".json" kv.1)
  (sortByKey matched).flatMap (fun kv =>
    match kv.2 with
    | Stored.malformed _ => []
    | Stored.jval data =>
        (getRespListings data).filterMap _listing_to_point)

/-- A cached listing-page envelope whose request records its page number
and whose response holds a single listing. -/
def pageEnvelope (page : Int) (listing : Json) : Json :=
  Json.obj
    [("request", Json.obj [("data", Json.obj [("page", Json.num page)])]),
     ("response", Json.obj [("MapList", Json.obj
       [("ListingsSummaryVM", Json.arr [listing])])])]

/-- A listing whose centroid is `(n, n)`. -/
def listingAt (n : Int) : Json :=
  Json.obj [("Centroid", Json.obj
    [("latitude", Json.num n), ("longitude", Json.num n)])]

/-- A cache directory in which the hashed filename of page 2 sorts before
the hashed filename of page 1 (for the real payloads, md5 produces such
inversions: the page-1..5 keys sort as pages 3, 2, 1, 5, 4). -/
def invertedCacheDir : List (String × Stored) :=
  [("page_1bbb.json", Stored.jval (pageEnvelope 1 (listingAt 1))),
   ("page_0aaa.json", Stored.jval (pageEnvelope 2 (listingAt 2)))]

/-- C9 counterexample: the map-build stage emits page 2's point before
page 1's whenever page 2's hashed filename sorts first — the sequence of
MapPoints follows filename order, not ascending page order. -/
theorem ordering_cx :
    jGet (jGet (jGet (pageEnvelope 2 (listingAt 2)) "request") "data")
        "page" = Json.num 2 ∧
    jGet (jGet (jGet (pageEnvelope 1 (listingAt 1)) "request") "data")
        "page" = Json.num 1 ∧
    charListLe "page_0aaa.json".data "page_1bbb.json".data = true ∧
    ¬ charListLe "page_1bbb.json".data "page_0aaa.json".data = true ∧
    (_load_points_from_cache invertedCacheDir).map MapPoint.lat =
      [2, 1] := by
  refine ⟨rfl, rfl, by decide, by decide, by decide⟩

/-- C9 (amended): the cli loop fetches and merges listing pages in
strictly ascending page order and the schools loop accumulates items in
link-following order, but the map-build stage orders points by the
lexicographic order of the hash-derived cache filenames: its output is
determined by the sorted filenames alone (invariant under directory
enumeration order) and need not follow page order. -/
theorem ordering_amended :
    (∀ fetch : Nat → Json, ((aggregateListings fetch).2).Sorted (· < ·)) ∧
    (∀ (net : String → Nat × Json) (chain : List (String × Json))
       (failOpt : Option String) (nx : Option String) (fuel : Nat)
       (fs : FS),
       Chained net nx chain failOpt → chain.length + 1 ≤ fuel →
       (schoolsLoop net fuel nx [] [] fs).1 =
         chain.flatMap (fun p => getItems p.2)) ∧
    (∀ files₁ files₂ : List (String × Stored), files₁.Perm files₂ →
       (files₁.map Prod.fst).Nodup →
       _load_points_from_cache files₁ = _load_points_from_cache files₂) := by
  refine ⟨?_, ?_, ?_⟩
  · intro fetch
    simp only [aggregateListings]
    constructor
    · intro x hx
      have := (List.mem_range'_1).mp hx
      omega
    · exact List.pairwise_lt_range' 2 _
  · intro net chain failOpt nx fuel fs hch hfuel
    obtain ⟨fsF, h⟩ := schoolsLoop_spec net chain failOpt nx fuel [] [] fs
      hch hfuel
    rw [h]
    simp
  · intro files₁ files₂ hp hnd
    have hpf : (files₁.filter
        (fun kv => strStartsWith "page_" kv.1 &&
          strEndsWith ".json" kv.1)).Perm
        (files₂.filter
          (fun kv => strStartsWith "page_" kv.1 &&
            strEndsWith ".json" kv.1)) :=
      hp.filter _
    have hndf : ((files₁.filter
        (fun kv => strStartsWith "page_" kv.1 &&
          strEndsWith ".json" kv.1)).map Prod.fst).Nodup :=
      hnd.sublist ((List.filter_sublist files₁).map Prod.fst)
    unfold _load_points_from_cache
    dsimp only
    rw [sortByKey_eq_of_perm hpf hndf]

/-- Witness for C9 (amended): the loader's output is unchanged when the
directory is enumerated in the opposite order, and the simulated listing
run's fetched pages are strictly ascending. -/
theorem ordering_amended_witness :
    ((aggregateListings simListingSource).2).Sorted (· < ·) ∧
    _load_points_from_cache invertedCacheDir =
      _load_points_from_cache
        [("page_0aaa.json", Stored.jval (pageEnvelope 2 (listingAt 2))),
         ("page_1bbb.json", Stored.jval (pageEnvelope 1 (listingAt 1)))] :=
  ⟨ordering_amended.1 simListingSource,
   ordering_amended.2.2 invertedCacheDir _ (List.Perm.swap _ _ _)
     (by decide)⟩
